import Mathlib

/-!
Shallow embedding of the repository-plugin registry of
`src/kbs/src/resource/plugin/mod.rs` (trustee, KBS resource plugins).

Modelling choices:
* `anyhow::Error` values are carried as plain `String` messages, since the
  source only ever constructs them from format strings (`anyhow!`, `bail!`,
  `with_context`) and propagates plugin errors verbatim; fallible Rust code
  returning `Result<T>` becomes `Except String T`.
* `Vec<u8>` payloads become `List Nat`.
* Side effects of the construction path (directory creation, builder
  invocation) are recorded in an explicit event trace (`FsEvent`), and the
  filesystem is an explicit state (`FsState`, the set of existing paths)
  threaded through construction; whether `fs::create_dir_all` would succeed
  is an environment parameter `createOk`.
* Plugin-internal side effects of `get_plugin_resource` (network, disk) are
  modelled by threading an opaque world state `W` through each call; the
  trait methods take `&self`, so a plugin is a name together with a
  world-transforming resolution function.
* The compile-time determined list of builders (`get_plugin_builders`, whose
  contents depend on cargo features) is a parameter `builders`.
-/

namespace Trustee

/-- Trace events for the side effects performed during registry
construction: a recursive directory creation (`fs::create_dir_all`) and an
invocation of a builder's `create_plugin` with the directory passed to it. -/
inductive FsEvent where
  | createDirAll (path : String)
  | createPlugin (pluginName : String) (dir : String)
deriving DecidableEq, Repr

/-- The filesystem state: the set of paths that exist. -/
structure FsState where
  dirs : List String
deriving DecidableEq, Repr

/-- `Path::new(p).exists()`. -/
def FsState.pathExists (fs : FsState) (p : String) : Bool :=
  fs.dirs.contains p

/-- A live plugin instance (trait `RepositoryPlugin`): `get_name` returns a
fixed name, `get_plugin_resource` resolves a resource, possibly with
plugin-internal side effects on the opaque world `W`. -/
structure RepositoryPlugin (W : Type) where
  name : String
  get_plugin_resource : W → String → String → Except String (List Nat) × W

/-- A compile-time builder (trait `RepositoryPluginBuild`): a static name and
a constructor taking the working-directory path. -/
structure RepositoryPluginBuild (W : Type) where
  get_plugin_name : String
  create_plugin : String → Except String (RepositoryPlugin W)

/-- `RepositoryPluginManagerConfig`: root working directory plus the ordered
list of enabled plugin names. -/
structure RepositoryPluginManagerConfig where
  work_dir : String
  enabled_plugins : List String

/-- `RepositoryPluginManager`: the ordered collection of live plugin
handles. -/
structure RepositoryPluginManager (W : Type) where
  plugins : List (RepositoryPlugin W)

/-- The directory-setup step of `create_plugin_manager`:
`if !Path::new(&self.work_dir).exists() { fs::create_dir_all(..)? }`.
Returns the updated filesystem state (or the setup error with context
`"Create resource plugin dir"`) together with the trace of attempted
creations. -/
def ensure_work_dir (fs : FsState) (createOk : Bool) (work_dir : String) :
    Except String FsState × List FsEvent :=
  if ¬ fs.pathExists work_dir then
    if createOk then
      (Except.ok ⟨work_dir :: fs.dirs⟩, [FsEvent.createDirAll work_dir])
    else
      (Except.error "Create resource plugin dir", [FsEvent.createDirAll work_dir])
  else
    (Except.ok fs, [])

/-- The per-name resolution/build loop of `create_plugin_manager`: for each
enabled name in order, find the builder with that name (else fail with the
`"Cargo {name}-plugin feature is either not set or not supported"` error),
compute `plugin_dir = work_dir/builder.get_plugin_name()`, invoke
`create_plugin` (propagating its failure), and push the handle. The second
component is the trace of builder invocations actually performed. -/
def resolve_and_build {W : Type} (builders : List (RepositoryPluginBuild W)) (work_dir : String) :
    List String → Except String (List (RepositoryPlugin W)) × List FsEvent
  | [] => (Except.ok [], [])
  | plugin_name :: rest =>
    match builders.find? (fun x => x.get_plugin_name == plugin_name) with
    | none =>
        (Except.error ("Cargo " ++ plugin_name ++ "-plugin feature is either not set or not supported"), [])
    | some builder =>
        let plugin_dir := work_dir ++ "/" ++ builder.get_plugin_name
        match builder.create_plugin plugin_dir with
        | Except.error e =>
            (Except.error e, [FsEvent.createPlugin builder.get_plugin_name plugin_dir])
        | Except.ok plugin =>
            match resolve_and_build builders work_dir rest with
            | (Except.ok plugins, tr) =>
                (Except.ok (plugin :: plugins), FsEvent.createPlugin builder.get_plugin_name plugin_dir :: tr)
            | (Except.error e, tr) =>
                (Except.error e, FsEvent.createPlugin builder.get_plugin_name plugin_dir :: tr)

/-- `RepositoryPluginManagerConfig::create_plugin_manager`: ensure the work
directory, then resolve and build every enabled plugin in order; on success
return the manager holding the handles in configured order (and the updated
filesystem state). Any failure aborts the whole construction. -/
def create_plugin_manager {W : Type} (builders : List (RepositoryPluginBuild W))
    (cfg : RepositoryPluginManagerConfig) (fs : FsState) (createOk : Bool) :
    Except String (RepositoryPluginManager W × FsState) × List FsEvent :=
  match ensure_work_dir fs createOk cfg.work_dir with
  | (Except.error e, tr) => (Except.error e, tr)
  | (Except.ok fs', tr) =>
      match resolve_and_build builders cfg.work_dir cfg.enabled_plugins with
      | (Except.ok plugins, tr2) => (Except.ok (⟨plugins⟩, fs'), tr ++ tr2)
      | (Except.error e, tr2) => (Except.error e, tr ++ tr2)

/-- The scan loop of `dispatch_get_request`: for each handle in order,
take its lock, compare `*plugin_name == *p.get_name().await`; on the first
match return `p.get_plugin_resource(resource, query_string).await` directly;
if the scan ends, `bail!("Plugin {} not found", plugin_name)`. -/
def dispatch_loop {W : Type} (w : W) (plugin_name resource query_string : String) :
    List (RepositoryPlugin W) → Except String (List Nat) × W
  | [] => (Except.error ("Plugin " ++ plugin_name ++ " not found"), w)
  | p :: rest =>
    if plugin_name == p.name then
      p.get_plugin_resource w resource query_string
    else
      dispatch_loop w plugin_name resource query_string rest

/-- `RepositoryPluginManager::dispatch_get_request`. It takes `&self`: the
manager is read, never returned modified; only the opaque plugin world `W`
is threaded. -/
def dispatch_get_request {W : Type} (m : RepositoryPluginManager W) (w : W)
    (plugin_name resource query_string : String) : Except String (List Nat) × W :=
  dispatch_loop w plugin_name resource query_string m.plugins

/-- A caller issuing a sequence of dispatch calls against one manager: each
call receives the same `&self` manager (the source cannot hand back a
modified one) while the plugin world is threaded from call to call. -/
def run_requests {W : Type} (m : RepositoryPluginManager W) :
    W → List (String × String × String) → List (Except String (List Nat)) × W
  | w, [] => ([], w)
  | w, (pn, r, q) :: rest =>
    let res := dispatch_get_request m w pn r q
    let rest' := run_requests m res.2 rest
    (res.1 :: rest'.1, rest'.2)

/-! Concrete instances used by witnesses and counterexamples. -/

/-- A plugin named `alpha` returning byte `[1]`. -/
def pluginA : RepositoryPlugin Unit :=
  ⟨"alpha", fun w _ _ => (Except.ok [1], w)⟩

/-- A second plugin also named `alpha`, returning byte `[2]`. -/
def pluginA2 : RepositoryPlugin Unit :=
  ⟨"alpha", fun w _ _ => (Except.ok [2], w)⟩

/-- A plugin named `alpha` whose resolution fails with a message identical to
the dispatcher's miss message for the name `beta`. -/
def pluginMimic : RepositoryPlugin Unit :=
  ⟨"alpha", fun w _ _ => (Except.error "Plugin beta not found", w)⟩

/-- A builder for `pluginA`. -/
def builderA : RepositoryPluginBuild Unit :=
  ⟨"alpha", fun _ => Except.ok pluginA⟩

/-- A builder whose `create_plugin` always fails. -/
def builderFail : RepositoryPluginBuild Unit :=
  ⟨"bad", fun _ => Except.error "boom"⟩

/-- A configuration enabling only `alpha` under root `wd`. -/
def cfgA : RepositoryPluginManagerConfig := ⟨"wd", ["alpha"]⟩

/-- An empty filesystem. -/
def fsEmpty : FsState := ⟨[]⟩

/-- A filesystem where `wd` already exists. -/
def fsWd : FsState := ⟨["wd"]⟩

/-- A registry with two plugins both named `alpha`. -/
def mgrShadow : RepositoryPluginManager Unit := ⟨[pluginA, pluginA2]⟩

/-- A registry holding only `pluginMimic`. -/
def mgrMimic : RepositoryPluginManager Unit := ⟨[pluginMimic]⟩

/-! Helper lemmas (shared by several claim theorems). -/

/-- The scan loop fails with the miss message when no plugin in the list has
the requested name. -/
lemma dispatch_loop_miss {W : Type} (w : W) (pn r q : String)
    (l : List (RepositoryPlugin W)) (h : ∀ p ∈ l, p.name ≠ pn) :
    dispatch_loop w pn r q l = (Except.error ("Plugin " ++ pn ++ " not found"), w) := by
  induction l with
  | nil => rfl
  | cons p rest ih =>
      have hp : p.name ≠ pn := h p (List.mem_cons_self p rest)
      have hb : (pn == p.name) = false := by
        rw [beq_eq_false_iff_ne]
        exact fun hh => hp hh.symm
      rw [dispatch_loop, hb]
      exact ih fun x hx => h x (List.mem_cons_of_mem p hx)

/-- The scan loop returns the first matching plugin's resolution result
directly, whatever comes after it. -/
lemma dispatch_loop_hit {W : Type} (w : W) (pn r q : String)
    (pre post : List (RepositoryPlugin W)) (p : RepositoryPlugin W)
    (hpre : ∀ x ∈ pre, x.name ≠ pn) (hp : p.name = pn) :
    dispatch_loop w pn r q (pre ++ p :: post) = p.get_plugin_resource w r q := by
  induction pre with
  | nil =>
      have hb : (pn == p.name) = true := by
        rw [beq_iff_eq]
        exact hp.symm
      rw [List.nil_append, dispatch_loop, hb]
      rfl
  | cons x rest ih =>
      have hx : x.name ≠ pn := hpre x (List.mem_cons_self x rest)
      have hb : (pn == x.name) = false := by
        rw [beq_eq_false_iff_ne]
        exact fun hh => hx hh.symm
      rw [List.cons_append, dispatch_loop, hb]
      exact ih fun y hy => hpre y (List.mem_cons_of_mem x hy)

/-- Running the build loop on an appended list first runs it on the left
part; only if that fully succeeds does the right part run, with results and
traces concatenated. In particular a failing left part determines the whole
run (result and trace). -/
lemma resolve_and_build_append {W : Type} (builders : List (RepositoryPluginBuild W))
    (wd : String) (l₁ l₂ : List String) :
    resolve_and_build builders wd (l₁ ++ l₂) =
      match resolve_and_build builders wd l₁ with
      | (Except.error e, tr) => (Except.error e, tr)
      | (Except.ok ps, tr) =>
        match resolve_and_build builders wd l₂ with
        | (Except.ok qs, tr2) => (Except.ok (ps ++ qs), tr ++ tr2)
        | (Except.error e, tr2) => (Except.error e, tr ++ tr2) := by
  induction l₁ with
  | nil =>
      rcases h₂ : resolve_and_build builders wd l₂ with ⟨res2, tr2⟩
      cases res2 <;> simp [resolve_and_build, h₂]
  | cons n rest ih =>
      rw [List.cons_append]
      cases hf : builders.find? (fun x => x.get_plugin_name == n) with
      | none => simp [resolve_and_build, hf]
      | some b =>
          cases hc : b.create_plugin (wd ++ "/" ++ b.get_plugin_name) with
          | error e => simp [resolve_and_build, hf, hc]
          | ok p =>
              rcases hr : resolve_and_build builders wd rest with ⟨res, tr⟩
              rcases h₂ : resolve_and_build builders wd l₂ with ⟨res2, tr2⟩
              cases res <;> cases res2 <;>
                simp [resolve_and_build, hf, hc, ih, hr, h₂]

/-- A failing build run absorbs any further enabled names: result and trace
are those of the failing part alone. -/
lemma resolve_and_build_error_stop {W : Type} (builders : List (RepositoryPluginBuild W))
    (wd : String) (l post : List String) (e : String)
    (h : (resolve_and_build builders wd l).1 = Except.error e) :
    resolve_and_build builders wd (l ++ post) = resolve_and_build builders wd l := by
  rw [resolve_and_build_append]
  rcases hr : resolve_and_build builders wd l with ⟨res, tr⟩
  rw [hr] at h
  cases res with
  | error e' => rfl
  | ok ps => exact absurd h (by simp)

/-- If no builder carries the requested name, `find?` comes up empty. -/
lemma find_builder_none {W : Type} (builders : List (RepositoryPluginBuild W))
    (missing : String) (h : ∀ b ∈ builders, b.get_plugin_name ≠ missing) :
    builders.find? (fun x => x.get_plugin_name == missing) = none := by
  rw [List.find?_eq_none]
  intro x hx
  simp only [beq_iff_eq]
  exact h x hx

/-- A name with no builder makes the build loop fail immediately with the
missing-feature error, performing no builder invocation. -/
lemma resolve_and_build_missing {W : Type} (builders : List (RepositoryPluginBuild W))
    (wd missing : String) (post : List String)
    (h : builders.find? (fun x => x.get_plugin_name == missing) = none) :
    resolve_and_build builders wd (missing :: post) =
      (Except.error ("Cargo " ++ missing ++ "-plugin feature is either not set or not supported"), []) := by
  simp [resolve_and_build, h]

/-- A directory-setup failure is the result of the whole construction. -/
lemma create_plugin_manager_ensure_error {W : Type} (builders : List (RepositoryPluginBuild W))
    (cfg : RepositoryPluginManagerConfig) (fs : FsState) (createOk : Bool)
    (e : String) (tr : List FsEvent)
    (h : ensure_work_dir fs createOk cfg.work_dir = (Except.error e, tr)) :
    create_plugin_manager builders cfg fs createOk = (Except.error e, tr) := by
  simp [create_plugin_manager, h]

/-- After a successful directory setup, the construction result is the build
loop's result (traces concatenated). -/
lemma create_plugin_manager_after_setup {W : Type} (builders : List (RepositoryPluginBuild W))
    (cfg : RepositoryPluginManagerConfig) (fs fs' : FsState) (createOk : Bool)
    (tr : List FsEvent)
    (h : ensure_work_dir fs createOk cfg.work_dir = (Except.ok fs', tr)) :
    create_plugin_manager builders cfg fs createOk =
      match resolve_and_build builders cfg.work_dir cfg.enabled_plugins with
      | (Except.ok ps, tr2) => (Except.ok (⟨ps⟩, fs'), tr ++ tr2)
      | (Except.error e, tr2) => (Except.error e, tr ++ tr2) := by
  simp [create_plugin_manager, h]

/-- The setup step emits only directory-creation events. -/
lemma ensure_work_dir_trace (fs : FsState) (createOk : Bool) (wd : String) :
    ∀ ev ∈ (ensure_work_dir fs createOk wd).2, ev = FsEvent.createDirAll wd := by
  intro ev hev
  rw [ensure_work_dir] at hev
  split at hev
  · split at hev <;> simpa using hev
  · simp at hev

/-- An existing work directory makes the setup step a no-op: no event, no
state change, no failure, whatever the creation environment would do. -/
lemma ensure_work_dir_exists_noop (fs : FsState) (createOk : Bool) (wd : String)
    (h : fs.pathExists wd = true) :
    ensure_work_dir fs createOk wd = (Except.ok fs, []) := by
  simp [ensure_work_dir, h]

/-- A successful setup step leaves the work directory existing. -/
lemma ensure_work_dir_ok_pathExists (fs fs' : FsState) (createOk : Bool) (wd : String)
    (tr : List FsEvent) (h : ensure_work_dir fs createOk wd = (Except.ok fs', tr)) :
    fs'.pathExists wd = true := by
  rw [ensure_work_dir] at h
  by_cases hp : fs.pathExists wd = true
  · simp [hp] at h
    rw [← h.1, hp]
  · simp [hp] at h
    cases createOk with
    | false => simp at h
    | true =>
        simp at h
        rw [← h.1]
        simp [FsState.pathExists]

/-- Every builder invocation recorded by the build loop received exactly
`work_dir ++ "/" ++ name` as its directory, `name` being the invoked
builder's own name, and that builder is one of the available builders. -/
lemma resolve_and_build_trace_events {W : Type} (builders : List (RepositoryPluginBuild W))
    (wd : String) (names : List String) (n d : String)
    (h : FsEvent.createPlugin n d ∈ (resolve_and_build builders wd names).2) :
    d = wd ++ "/" ++ n ∧ ∃ b ∈ builders, b.get_plugin_name = n := by
  induction names with
  | nil => simp [resolve_and_build] at h
  | cons nm rest ih =>
      rw [resolve_and_build] at h
      cases hf : builders.find? (fun x => x.get_plugin_name == nm) with
      | none => rw [hf] at h; simp at h
      | some b =>
          have hb : b ∈ builders := List.mem_of_find?_eq_some hf
          cases hc : b.create_plugin (wd ++ "/" ++ b.get_plugin_name) with
          | error e =>
              simp only [hf, hc, List.mem_singleton, FsEvent.createPlugin.injEq] at h
              exact ⟨by rw [h.1, h.2], b, hb, h.1.symm⟩
          | ok p =>
              rcases hr : resolve_and_build builders wd rest with ⟨res, tr⟩
              cases res <;>
                simp only [hf, hc, hr, List.mem_cons, FsEvent.createPlugin.injEq] at h <;>
                rcases h with h | h
              · exact ⟨by rw [h.1, h.2], b, hb, h.1.symm⟩
              · exact ih (by rw [hr]; exact h)
              · exact ⟨by rw [h.1, h.2], b, hb, h.1.symm⟩
              · exact ih (by rw [hr]; exact h)

/-- Claim C1: whenever `enabled_plugins` contains a name matched by no
available builder, `create_plugin_manager` fails — no registry value is
produced — no matter how many other names are valid; and when setup and all
entries before the unknown name succeed, the error is the one identifying
the missing plugin. -/
theorem create_plugin_manager_unknown_plugin {W : Type}
    (builders : List (RepositoryPluginBuild W)) (work_dir : String)
    (pre post : List String) (missing : String) (fs : FsState) (createOk : Bool)
    (hmiss : ∀ b ∈ builders, b.get_plugin_name ≠ missing) :
    (∃ e, (create_plugin_manager builders ⟨work_dir, pre ++ missing :: post⟩ fs createOk).1
        = Except.error e) ∧
    (∀ fs' tr ps,
      ensure_work_dir fs createOk work_dir = (Except.ok fs', tr) →
      (resolve_and_build builders work_dir pre).1 = Except.ok ps →
      (create_plugin_manager builders ⟨work_dir, pre ++ missing :: post⟩ fs createOk).1
        = Except.error ("Cargo " ++ missing ++ "-plugin feature is either not set or not supported")) := by
  have hnone := find_builder_none builders missing hmiss
  have hmissrun := resolve_and_build_missing builders work_dir missing post hnone
  constructor
  · rcases he : ensure_work_dir fs createOk work_dir with ⟨eres, etr⟩
    cases eres with
    | error e =>
        exact ⟨e, by rw [create_plugin_manager_ensure_error builders _ fs createOk e etr he]⟩
    | ok fs' =>
        rw [create_plugin_manager_after_setup builders _ fs fs' createOk etr he]
        have happ := resolve_and_build_append builders work_dir pre (missing :: post)
        rw [hmissrun] at happ
        rcases hp : resolve_and_build builders work_dir pre with ⟨pres, ptr⟩
        rw [hp] at happ
        cases pres with
        | error e => exact ⟨e, by rw [happ]⟩
        | ok ps =>
            exact ⟨"Cargo " ++ missing ++ "-plugin feature is either not set or not supported",
              by rw [happ]⟩
  · intro fs' tr ps he hpre
    rw [create_plugin_manager_after_setup builders _ fs fs' createOk tr he]
    have happ := resolve_and_build_append builders work_dir pre (missing :: post)
    rw [hmissrun] at happ
    rcases hp : resolve_and_build builders work_dir pre with ⟨pres, ptr⟩
    rw [hp] at happ
    rw [hp] at hpre
    cases pres with
    | error e => exact absurd hpre (by simp)
    | ok ps' => rw [happ]

/-- Witness for C1: with only the `alpha` builder available and enabled
list `[alpha, zeta, alpha]`, construction fails with the error naming the
missing `zeta` plugin. -/
theorem create_plugin_manager_unknown_plugin_witness :
    (∃ e, (create_plugin_manager [builderA] ⟨"wd", ["alpha"] ++ "zeta" :: ["alpha"]⟩ fsWd false).1
        = Except.error e) ∧
    (create_plugin_manager [builderA] ⟨"wd", ["alpha"] ++ "zeta" :: ["alpha"]⟩ fsWd false).1
        = Except.error "Cargo zeta-plugin feature is either not set or not supported" :=
  ⟨(create_plugin_manager_unknown_plugin [builderA] "wd" ["alpha"] ["alpha"] "zeta" fsWd false
      (by decide)).1,
    (create_plugin_manager_unknown_plugin [builderA] "wd" ["alpha"] ["alpha"] "zeta" fsWd false
      (by decide)).2 fsWd [] [pluginA] rfl rfl⟩

/-- Claim C5: every builder invocation performed during construction
receives as its working directory exactly the configured `work_dir`
followed by `/` followed by the invoked builder's own name. -/
theorem create_plugin_dir_is_work_dir_slash_name {W : Type}
    (builders : List (RepositoryPluginBuild W)) (cfg : RepositoryPluginManagerConfig)
    (fs : FsState) (createOk : Bool) (n d : String)
    (h : FsEvent.createPlugin n d ∈ (create_plugin_manager builders cfg fs createOk).2) :
    d = cfg.work_dir ++ "/" ++ n ∧ ∃ b ∈ builders, b.get_plugin_name = n := by
  rcases he : ensure_work_dir fs createOk cfg.work_dir with ⟨eres, etr⟩
  have hetr : ∀ ev ∈ etr, ev = FsEvent.createDirAll cfg.work_dir := by
    intro ev hev
    exact ensure_work_dir_trace fs createOk cfg.work_dir ev (by rw [he]; exact hev)
  cases eres with
  | error e =>
      rw [create_plugin_manager_ensure_error builders cfg fs createOk e etr he] at h
      exact absurd (hetr _ h) (by simp)
  | ok fs' =>
      rw [create_plugin_manager_after_setup builders cfg fs fs' createOk etr he] at h
      rcases hr : resolve_and_build builders cfg.work_dir cfg.enabled_plugins with ⟨res, tr2⟩
      cases res <;> rw [hr] at h <;> simp only [List.mem_append] at h <;>
        rcases h with h | h
      · exact absurd (hetr _ h) (by simp)
      · exact resolve_and_build_trace_events builders cfg.work_dir cfg.enabled_plugins n d
          (by rw [hr]; exact h)
      · exact absurd (hetr _ h) (by simp)
      · exact resolve_and_build_trace_events builders cfg.work_dir cfg.enabled_plugins n d
          (by rw [hr]; exact h)

/-- Witness for C5: building `alpha` under `wd` invokes the builder with
directory `wd/alpha`. -/
theorem create_plugin_dir_witness :
    "wd/alpha" = cfgA.work_dir ++ "/" ++ "alpha" ∧
    ∃ b ∈ [builderA], b.get_plugin_name = "alpha" :=
  create_plugin_dir_is_work_dir_slash_name [builderA] cfgA fsEmpty true "alpha" "wd/alpha"
    (by decide)

/-- Claim C6: the construction attempts to create `work_dir` (recursively)
exactly when it does not already exist: an existing directory means no
creation event, no state change and no failure (whatever creation would
return); a missing directory means a creation attempt is recorded, and if
that creation fails the whole construction aborts with the setup error;
and after any successful construction the directory exists, so a second
construction over the resulting state performs no creation and succeeds
with the same registry. -/
theorem work_dir_setup_behavior {W : Type} (builders : List (RepositoryPluginBuild W))
    (cfg : RepositoryPluginManagerConfig) (fsE fsN fs fs' : FsState)
    (cOkE cOkN cOk cOk' : Bool) (m : RepositoryPluginManager W) (tr : List FsEvent) :
    (fsE.pathExists cfg.work_dir = true →
      ensure_work_dir fsE cOkE cfg.work_dir = (Except.ok fsE, [])) ∧
    (fsN.pathExists cfg.work_dir = false →
      (ensure_work_dir fsN cOkN cfg.work_dir).2 = [FsEvent.createDirAll cfg.work_dir]) ∧
    (fsN.pathExists cfg.work_dir = false →
      (create_plugin_manager builders cfg fsN false).1 =
        Except.error "Create resource plugin dir") ∧
    (create_plugin_manager builders cfg fs cOk = (Except.ok (m, fs'), tr) →
      fs'.pathExists cfg.work_dir = true ∧
      create_plugin_manager builders cfg fs' cOk' =
        (Except.ok (m, fs'), (resolve_and_build builders cfg.work_dir cfg.enabled_plugins).2)) := by
  refine ⟨fun hE => ensure_work_dir_exists_noop fsE cOkE cfg.work_dir hE, fun hN => ?_,
    fun hN => ?_, fun h => ?_⟩
  · rw [ensure_work_dir]
    cases cOkN <;> simp [hN]
  · have he : ensure_work_dir fsN false cfg.work_dir =
        (Except.error "Create resource plugin dir", [FsEvent.createDirAll cfg.work_dir]) := by
      rw [ensure_work_dir]
      simp [hN]
    rw [create_plugin_manager_ensure_error builders cfg fsN false _ _ he]
  · rcases he : ensure_work_dir fs cOk cfg.work_dir with ⟨eres, etr⟩
    cases eres with
    | error e =>
        rw [create_plugin_manager_ensure_error builders cfg fs cOk e etr he] at h
        exact absurd h (by simp)
    | ok fs'' =>
        rw [create_plugin_manager_after_setup builders cfg fs fs'' cOk etr he] at h
        rcases hr : resolve_and_build builders cfg.work_dir cfg.enabled_plugins with ⟨res, tr2⟩
        rw [hr] at h
        cases res with
        | error e => exact absurd h (by simp)
        | ok ps =>
            simp only [Prod.mk.injEq, Except.ok.injEq] at h
            obtain ⟨⟨hm, hfs⟩, htr⟩ := h
            subst hfs
            have hex : fs''.pathExists cfg.work_dir = true :=
              ensure_work_dir_ok_pathExists fs fs'' cOk cfg.work_dir etr he
            refine ⟨hex, ?_⟩
            rw [create_plugin_manager_after_setup builders cfg fs'' fs'' cOk'
                [] (ensure_work_dir_exists_noop fs'' cOk' cfg.work_dir hex), hr, ← hm]
            rfl

/-- Witness for C6: an existing `wd` is left untouched; a missing `wd`
triggers a creation attempt whose failure aborts construction; and after a
successful construction from the empty filesystem, reconstructing over the
resulting state succeeds — even with a failing creation environment. -/
theorem work_dir_setup_behavior_witness :
    ensure_work_dir fsWd false cfgA.work_dir = (Except.ok fsWd, []) ∧
    (ensure_work_dir fsEmpty true cfgA.work_dir).2 = [FsEvent.createDirAll cfgA.work_dir] ∧
    (create_plugin_manager [builderA] cfgA fsEmpty false).1 =
      Except.error "Create resource plugin dir" ∧
    FsState.pathExists ⟨["wd"]⟩ cfgA.work_dir = true ∧
    create_plugin_manager [builderA] cfgA ⟨["wd"]⟩ false =
      (Except.ok (⟨[pluginA]⟩, ⟨["wd"]⟩),
        (resolve_and_build [builderA] cfgA.work_dir cfgA.enabled_plugins).2) := by
  obtain ⟨h1, h2, h3, h4⟩ :=
    work_dir_setup_behavior [builderA] cfgA fsWd fsEmpty fsEmpty ⟨["wd"]⟩ false true true false
      ⟨[pluginA]⟩ [FsEvent.createDirAll "wd", FsEvent.createPlugin "alpha" "wd/alpha"]
  exact ⟨h1 rfl, h2 rfl, h3 rfl, h4 rfl⟩

/-- Claim C8: construction stops at the first failing enabled entry. If the
run over a leading segment of `enabled_plugins` fails, appending further
names changes neither the result nor the trace (so no later builder is ever
invoked), and the whole construction returns the error — the handles
already built are discarded, not returned in any registry. -/
theorem construction_stops_at_first_failure {W : Type}
    (builders : List (RepositoryPluginBuild W)) (wd : String) (l post : List String)
    (fs : FsState) (createOk : Bool) (e : String)
    (hfail : (resolve_and_build builders wd l).1 = Except.error e) :
    resolve_and_build builders wd (l ++ post) = resolve_and_build builders wd l ∧
    (∀ fs' tr, ensure_work_dir fs createOk wd = (Except.ok fs', tr) →
      (create_plugin_manager builders ⟨wd, l ++ post⟩ fs createOk).1 = Except.error e) := by
  have hstop := resolve_and_build_error_stop builders wd l post e hfail
  refine ⟨hstop, fun fs' tr he => ?_⟩
  rw [create_plugin_manager_after_setup builders _ fs fs' createOk tr he]
  rcases hr : resolve_and_build builders wd l with ⟨res, rtr⟩
  rw [hr] at hfail
  cases res with
  | error e' =>
      cases hfail
      rw [hstop, hr]
  | ok ps => exact absurd hfail (by simp)

/-- Witness for C8: with builders `alpha` (succeeding) and `bad` (whose
build fails with `boom`), enabling `[alpha, bad, alpha]` fails with `boom`,
and the run over `[alpha, bad] ++ [alpha]` equals the run over
`[alpha, bad]` — the trailing `alpha` is never built. -/
theorem construction_stops_at_first_failure_witness :
    resolve_and_build [builderA, builderFail] "wd" (["alpha", "bad"] ++ ["alpha"]) =
      resolve_and_build [builderA, builderFail] "wd" ["alpha", "bad"] ∧
    (create_plugin_manager [builderA, builderFail] ⟨"wd", ["alpha", "bad"] ++ ["alpha"]⟩
        fsWd false).1 = Except.error "boom" :=
  ⟨(construction_stops_at_first_failure [builderA, builderFail] "wd" ["alpha", "bad"]
      ["alpha"] fsWd false "boom" rfl).1,
    (construction_stops_at_first_failure [builderA, builderFail] "wd" ["alpha", "bad"]
      ["alpha"] fsWd false "boom" rfl).2 fsWd [] rfl⟩

/-- Claim C9: an empty `enabled_plugins` list yields (once directory setup
succeeds) a registry with zero plugins, and every dispatch against that
empty registry fails with the plugin-not-found error. -/
theorem empty_enabled_plugins_registry {W : Type}
    (builders : List (RepositoryPluginBuild W)) (wd : String) (fs fs' : FsState)
    (createOk : Bool) (tr : List FsEvent)
    (h : ensure_work_dir fs createOk wd = (Except.ok fs', tr)) :
    (create_plugin_manager builders ⟨wd, []⟩ fs createOk).1 = Except.ok (⟨[]⟩, fs') ∧
    ∀ (w : W) pn r q,
      dispatch_get_request (⟨[]⟩ : RepositoryPluginManager W) w pn r q =
        (Except.error ("Plugin " ++ pn ++ " not found"), w) := by
  refine ⟨?_, fun w pn r q => rfl⟩
  rw [create_plugin_manager_after_setup builders _ fs fs' createOk tr h]
  rfl

/-- Witness for C9: constructing with no enabled plugins over an existing
`wd` yields the empty registry, and a dispatch against it misses. -/
theorem empty_enabled_plugins_registry_witness :
    (create_plugin_manager ([builderA] : List (RepositoryPluginBuild Unit))
        ⟨"wd", []⟩ fsWd false).1 = Except.ok (⟨[]⟩, fsWd) ∧
    dispatch_get_request (⟨[]⟩ : RepositoryPluginManager Unit) () "beta" "r" "q" =
      (Except.error "Plugin beta not found", ()) :=
  ⟨(empty_enabled_plugins_registry [builderA] "wd" fsWd fsWd false [] rfl).1,
    (empty_enabled_plugins_registry [builderA] "wd" fsWd fsWd false [] rfl).2 () "beta" "r" "q"⟩

/-- Claim C2: `dispatch_get_request` scans the plugin handles in
registration order, compares names by exact string equality, and on the
first match returns that plugin's `get_plugin_resource` result directly
(success or the plugin's own error); any later plugins — including ones with
the same name — are shadowed by the earlier-registered match. -/
theorem dispatch_first_match {W : Type} (m : RepositoryPluginManager W) (w : W)
    (pre post : List (RepositoryPlugin W)) (p : RepositoryPlugin W) (pn r q : String)
    (hm : m.plugins = pre ++ p :: post)
    (hpre : ∀ x ∈ pre, x.name ≠ pn) (hp : p.name = pn) :
    dispatch_get_request m w pn r q = p.get_plugin_resource w r q := by
  rw [dispatch_get_request, hm]
  exact dispatch_loop_hit w pn r q pre post p hpre hp

/-- Witness for C2: in a registry with two plugins both named `alpha`, the
earlier-registered `pluginA` answers, shadowing `pluginA2`. -/
theorem dispatch_first_match_witness :
    dispatch_get_request mgrShadow () "alpha" "r" "q" = pluginA.get_plugin_resource () "r" "q" ∧
    pluginA2.name = "alpha" :=
  ⟨dispatch_first_match mgrShadow () [] [pluginA2] pluginA "alpha" "r" "q" rfl
      (by intro x hx; simp at hx) rfl,
    rfl⟩

/-- Claim C3: dispatching a name that matches none of the registry's
plugins fails with the `"Plugin {name} not found"` error naming the
requested plugin, never a success value. -/
theorem dispatch_not_found {W : Type} (m : RepositoryPluginManager W) (w : W)
    (pn r q : String) (h : ∀ p ∈ m.plugins, p.name ≠ pn) :
    dispatch_get_request m w pn r q = (Except.error ("Plugin " ++ pn ++ " not found"), w) :=
  dispatch_loop_miss w pn r q m.plugins h

/-- Witness for C3: dispatching `beta` against a registry holding only
`alpha`-named plugins yields the miss error. -/
theorem dispatch_not_found_witness :
    dispatch_get_request mgrShadow () "beta" "r" "q" =
      (Except.error "Plugin beta not found", ()) :=
  dispatch_not_found mgrShadow () "beta" "r" "q" (by decide)

/-- Counterexample for C4: the lookup-miss error and a plugin-level
resolution error are NOT distinct typed error kinds. Both paths yield a
bare `anyhow`-style message error of the same type; with `pluginMimic`
(named `alpha`) whose resolution fails with the text of the miss message for
`beta`, the hit-then-fail call for `alpha` and the miss call for `beta`
return literally equal error values, so the caller cannot tell them apart
as typed values. -/
theorem dispatch_error_kinds_cex :
    pluginMimic.name = "alpha" ∧
    dispatch_get_request mgrMimic () "alpha" "res" "qs" =
      (Except.error "Plugin beta not found", ()) ∧
    dispatch_get_request mgrMimic () "beta" "res" "qs" =
      (Except.error "Plugin beta not found", ()) ∧
    dispatch_get_request mgrMimic () "alpha" "res" "qs" =
      dispatch_get_request mgrMimic () "beta" "res" "qs" :=
  ⟨rfl, rfl, rfl, rfl⟩

/-- Claim C4 (amended): both failure paths of `dispatch_get_request` return
errors of one and the same (message-string) error type: a lookup miss is
identified only by the message text `"Plugin {name} not found"`, and a
matched plugin's resolution failure is propagated verbatim into that same
type — so the two failures are distinguishable by message text only, not as
distinct typed kinds. -/
theorem dispatch_failures_share_error_type {W : Type} (m : RepositoryPluginManager W)
    (w w' : W) (pre post : List (RepositoryPlugin W)) (p : RepositoryPlugin W)
    (pnMiss pnHit r q : String) (e : String) :
    ((∀ x ∈ m.plugins, x.name ≠ pnMiss) →
      dispatch_get_request m w pnMiss r q =
        (Except.error ("Plugin " ++ pnMiss ++ " not found"), w)) ∧
    (m.plugins = pre ++ p :: post → (∀ x ∈ pre, x.name ≠ pnHit) → p.name = pnHit →
      p.get_plugin_resource w r q = (Except.error e, w') →
      dispatch_get_request m w pnHit r q = (Except.error e, w')) := by
  constructor
  · intro h
    exact dispatch_loop_miss w pnMiss r q m.plugins h
  · intro hm hpre hp hres
    rw [dispatch_get_request, hm, dispatch_loop_hit w pnHit r q pre post p hpre hp, hres]

/-- Witness for the amended C4: a concrete miss (`beta`) and a concrete
plugin-level failure (`alpha` via `pluginMimic`), both landing in the same
message-string error type. -/
theorem dispatch_failures_share_error_type_witness :
    dispatch_get_request mgrMimic () "beta" "r" "q" =
      (Except.error ("Plugin " ++ "beta" ++ " not found"), ()) ∧
    dispatch_get_request mgrMimic () "alpha" "r" "q" =
      (Except.error "Plugin beta not found", ()) :=
  ⟨(dispatch_failures_share_error_type mgrMimic () () [] [] pluginMimic "beta" "alpha"
        "r" "q" "Plugin beta not found").1 (by decide),
    (dispatch_failures_share_error_type mgrMimic () () [] [] pluginMimic "beta" "alpha"
        "r" "q" "Plugin beta not found").2 rfl (by intro x hx; simp at hx) rfl rfl⟩

/-- Claim C10: dispatch calls never modify the registry's plugin
collection. `dispatch_get_request` borrows the manager immutably (only the
opaque plugin world is threaded), so after any sequence of calls — hits,
misses or plugin failures — every later call is still served by the very
same manager, with the membership and order of `plugins` exactly as at
construction time: a run over `reqs₁ ++ reqs₂` is the run of `reqs₁`
followed by a run of `reqs₂` against the unchanged original manager. -/
theorem dispatch_preserves_registry {W : Type} (m : RepositoryPluginManager W) (w : W)
    (reqs₁ reqs₂ : List (String × String × String)) :
    run_requests m w (reqs₁ ++ reqs₂) =
      ((run_requests m w reqs₁).1 ++ (run_requests m (run_requests m w reqs₁).2 reqs₂).1,
        (run_requests m (run_requests m w reqs₁).2 reqs₂).2) := by
  induction reqs₁ generalizing w with
  | nil => rfl
  | cons req rest ih =>
      obtain ⟨pn, r, q⟩ := req
      simp only [List.cons_append, run_requests, List.append_eq, ih]

end Trustee
